import Mathlib

/-!
Shallow embedding of the dialogflow-webhook repository.

Part 1: the intake webhook (src/api/webhook.js): field extraction, the three
validators, message construction and the orchestrator, with the two external
collaborators (spreadsheet persistence, confirmation email) modelled as
success/throw outcomes and the phone-number library as an abstract parse oracle.

Part 2: the FAQ responder (src/src/index.js): the timed facility cache and the
intent dispatcher.

JS machine model notes:
- strings are Lean `String`; the JS whitespace class is modelled by its ASCII
  members (the repository only ever feeds ASCII whitespace to it);
- JS values reaching the parameter bag are modelled by `JSValue` covering the
  shapes the upstream platform can send: strings, objects with a string `name`
  field, other objects, integral numbers, null and undefined;
- a JS regex `test` is translated to an equivalent executable predicate,
  justified next to each definition.
-/

namespace DialogflowWebhook

/-- ASCII members of the JS `\s` class (space, tab, newline, carriage return,
vertical tab, form feed). -/
def jsSpace (c : Char) : Bool :=
  c = ' ' || c = '\t' || c = '\n' || c = '\r' || c = '\x0b' || c = '\x0c'

/-- JS `String.prototype.trim`: drop whitespace from both ends. -/
def jsTrim (s : String) : String :=
  ⟨((s.data.dropWhile jsSpace).reverse.dropWhile jsSpace).reverse⟩

/-- JS `String.prototype.toLowerCase` on ASCII data. -/
def jsLower (s : String) : String := ⟨s.data.map Char.toLower⟩

/-- Substring occurrence on character lists (needle occurs contiguously). -/
def containsSubB (needle : List Char) : List Char → Bool
  | [] => needle.isEmpty
  | c :: t => needle.isPrefixOf (c :: t) || containsSubB needle t

/-- Substring occurrence on strings. -/
def containsSubstr (needle hay : String) : Bool := containsSubB needle.data hay.data

/-- JS `String.prototype.replace` with a plain-string pattern: replace the
first occurrence only (patterns used in this repository are nonempty). -/
def replaceFirstList (pat repl : List Char) : List Char → List Char
  | [] => []
  | c :: t =>
    if pat.isPrefixOf (c :: t) then repl ++ (c :: t).drop pat.length
    else c :: replaceFirstList pat repl t

/-- JS `s.replace(pat, repl)` for a plain nonempty string pattern. -/
def jsReplaceFirst (s pat repl : String) : String :=
  ⟨replaceFirstList pat.data repl.data s.data⟩

/-- JS values as delivered in the Dialogflow parameter bag. -/
inductive JSValue where
  | str (s : String)
  | objWithName (s : String)
  | objOther
  | num (n : Int)
  | nullv
  | undef
deriving DecidableEq

/-- JS `String(v || '')`: falsy values (undefined, null, '', 0) collapse to the
empty string, any object stringifies to "[object Object]", numbers to their
decimal representation. An absent key reads as undefined. -/
def jsStringOrEmpty : Option JSValue → String
  | none => ""
  | some (JSValue.str s) => s
  | some (JSValue.objWithName _) => "[object Object]"
  | some JSValue.objOther => "[object Object]"
  | some (JSValue.num n) => if n = 0 then "" else toString n
  | some JSValue.nullv => ""
  | some JSValue.undef => ""

/-- webhook.js lines 148-151: the fullname parameter may arrive as an object
with a string `name` field (compound entity) or as a plain value. -/
def extractName : Option JSValue → String
  | some (JSValue.objWithName s) => jsTrim s
  | v => jsTrim (jsStringOrEmpty v)

/-- webhook.js lines 153-154: `String(params[k] || '').trim()`. -/
def extractStrParam (v : Option JSValue) : String := jsTrim (jsStringOrEmpty v)

/-- Character class `[A-Za-z]` (ASCII alphabetic, as JS regex without the `u`
flag on ASCII input). -/
def asciiAlpha (c : Char) : Bool := c.isAlpha

/-- The test `/^[A-Za-z\s]+$/.test(t)`: t is nonempty and every character is
ASCII-alphabetic or whitespace. -/
def nameRegexTest (t : String) : Bool :=
  !t.data.isEmpty && t.data.all (fun c => asciiAlpha c || jsSpace c)

/-- Number of maximal nonwhitespace runs: the length of
`t.split(/\s+/).filter(p => p.length > 0)`. -/
def countTokensGo : List Char → Bool → Nat
  | [], _ => 0
  | c :: t, inWord =>
    if jsSpace c then countTokensGo t false
    else if inWord then countTokensGo t true
    else countTokensGo t true + 1

/-- Token count of a character list. -/
def countTokens (l : List Char) : Nat := countTokensGo l false

/-- webhook.js lines 26-34, `isValidName`: non-strings fail closed; a string
passes iff its trimmed form matches `/^[A-Za-z\s]+$/` and splits into at least
two nonempty whitespace-separated parts. -/
def isValidName (v : JSValue) : Bool :=
  match v with
  | JSValue.str s =>
    let trimmedName := jsTrim s
    nameRegexTest trimmedName && decide (2 ≤ countTokens trimmedName.data)
  | _ => false

/-- Character class `[^\s@]`. -/
def emailChunkChar (c : Char) : Bool := !jsSpace c && c != '@'

/-- The test `/^[^\s@]+@[^\s@]+\.[^\s@]+$/.test(t)`. The anchored regex holds
iff the string splits at its first `@` into a nonempty `@`-free nonspace
prefix and a nonempty `@`-free nonspace suffix containing a `.` that is
neither its first nor its last character (the class `[^\s@]` itself admits
`.`, so the literal dot may sit anywhere strictly inside the suffix). -/
def emailRegexTest (t : String) : Bool :=
  let cs := t.data
  let pre := cs.takeWhile (fun c => c != '@')
  match cs.dropWhile (fun c => c != '@') with
  | [] => false
  | _ :: post =>
    !pre.isEmpty && pre.all emailChunkChar &&
    !post.isEmpty && post.all emailChunkChar &&
    ((post.drop 1).dropLast.contains '.')

/-- webhook.js lines 40-46, `isValidEmail`: non-strings fail closed; strings
are trimmed and tested against the email shape regex. -/
def isValidEmail (v : JSValue) : Bool :=
  match v with
  | JSValue.str s => emailRegexTest (jsTrim s)
  | _ => false

/-- Outcome of `phoneUtil.parse` followed by `phoneUtil.isValidNumber`: the
parse either throws, or yields a number the library deems valid or invalid.
The `google-libphonenumber` library is an external collaborator; it is
modelled as an arbitrary oracle. -/
inductive ParseOutcome where
  | failed
  | parsed (valid : Bool)
deriving DecidableEq

/-- Abstract phone-number library: what `parse` + `isValidNumber` do on each
input string. -/
structure PhoneLib where
  parse : String → ParseOutcome

/-- webhook.js lines 52-64, `isValidPhoneNumber`: non-strings fail closed; a
parse exception is caught and reported as false; otherwise the library's
validity verdict is returned. The function is total: no outcome propagates an
exception. -/
def isValidPhoneNumber (lib : PhoneLib) (v : JSValue) : Bool :=
  match v with
  | JSValue.str s =>
    match lib.parse s with
    | ParseOutcome.failed => false
    | ParseOutcome.parsed b => b
  | _ => false

/-! ## Intake orchestrator (src/api/webhook.js, POST /api/webhook) -/

/-- A JSON HTTP response as produced by the handlers: `res.json` defaults to
status 200, `res.status(500).json` sets 500. `followupEvent` is the
`followupEventInput` object, as (event name, language code). -/
structure HttpResponse where
  status : Nat
  followupEvent : Option (String × String)
  fulfillmentText : Option String
deriving DecidableEq

/-- The side-effecting collaborator calls the orchestrator can issue, in the
order it issues them. -/
inductive Effect where
  | save
  | email
deriving DecidableEq

/-- External collaborator behavior for one request: the phone library oracle,
whether `saveToGoogleSheets` resolves (false = it throws) and whether
`sendConfirmationEmail` resolves. -/
structure Collaborators where
  phone : PhoneLib
  saveOk : Bool
  emailOk : Bool

/-- The incoming Dialogflow parameter bag (absent keys are `none`). -/
structure IntakeParams where
  fullname : Option JSValue
  email : Option JSValue
  phoneNumber : Option JSValue

/-- webhook.js lines 160-166: the missing-field directive. -/
def missingFieldResponse : HttpResponse :=
  { status := 200
    followupEvent := some ("collect_user_info", "en")
    fulfillmentText := some "I seem to be missing some information. Could you please provide your full name, email address, and phone number?" }

/-- Per-field phrase appended when the name validator fails. -/
def namePhrase : String := "your full name (at least two names)"

/-- Per-field phrase appended when the email validator fails. -/
def emailPhrase : String := "a valid email address"

/-- Per-field phrase appended when the phone validator fails. -/
def phonePhrase : String := "a valid phone number"

/-- `s.replace(/,\s*$/, '.')`: if the string ends in a comma followed only by
whitespace, that tail is replaced by a period; otherwise the string is
unchanged. -/
def replaceTrailingComma (s : String) : String :=
  match s.data.reverse.dropWhile jsSpace with
  | ',' :: rest => ⟨rest.reverse ++ ['.']⟩
  | _ => s

/-- webhook.js lines 177-182: concatenate the phrases of the failed fields
(name, email, phone order), each followed by ", ", then turn the trailing
separator into a period. -/
def buildInvalidFieldsMessage (nameValid emailValid phoneValid : Bool) : String :=
  replaceTrailingComma
    ((if nameValid then "" else namePhrase ++ ", ") ++
     (if emailValid then "" else emailPhrase ++ ", ") ++
     (if phoneValid then "" else phonePhrase ++ ", "))

/-- webhook.js lines 184-190: the validation-failure directive. -/
def validationFailureResponse (nameValid emailValid phoneValid : Bool) : HttpResponse :=
  { status := 200
    followupEvent := some ("collect_user_info", "en")
    fulfillmentText := some
      ("The information you provided for " ++
       buildInvalidFieldsMessage nameValid emailValid phoneValid ++
       " is not in a valid format. Could you please double-check and provide it again? For your name, please ensure you provide at least your first and last name. For the phone number, please ensure it\x27s a valid international format.") }

/-- webhook.js lines 197-202: the success directive. -/
def successResponse : HttpResponse :=
  { status := 200
    followupEvent := some ("trigger-booking-intent", "en")
    fulfillmentText := none }

/-- webhook.js lines 205-207: the fixed apology returned when persistence or
notification throws. -/
def processingErrorResponse : HttpResponse :=
  { status := 500
    followupEvent := none
    fulfillmentText := some "I\x27m sorry, I encountered an error while processing your information. Please try again later." }

/-- webhook.js lines 158-208, after field extraction: the emptiness pre-check,
the three validators, and on full success `await saveToGoogleSheets` followed
by `await sendConfirmationEmail` inside one try/catch. The effect list records
the collaborator calls actually issued, in order; a call that throws is still
recorded (it was issued) and aborts the rest of the try block. -/
def intakeCore (c : Collaborators) (name email phone : String) :
    HttpResponse × List Effect :=
  if name = "" ∨ email = "" ∨ phone = "" then
    (missingFieldResponse, [])
  else
    let nameValid := isValidName (JSValue.str name)
    let emailValid := isValidEmail (JSValue.str email)
    let phoneValid := isValidPhoneNumber c.phone (JSValue.str phone)
    if nameValid && emailValid && phoneValid then
      if c.saveOk then
        if c.emailOk then (successResponse, [Effect.save, Effect.email])
        else (processingErrorResponse, [Effect.save, Effect.email])
      else (processingErrorResponse, [Effect.save])
    else (validationFailureResponse nameValid emailValid phoneValid, [])

/-- webhook.js lines 143-209, POST /api/webhook: extract the three fields from
the parameter bag, then run the core orchestration. -/
def webhookHandler (c : Collaborators) (p : IntakeParams) :
    HttpResponse × List Effect :=
  intakeCore c (extractName p.fullname) (extractStrParam p.email)
    (extractStrParam p.phoneNumber)

/-! ## FAQ responder (src/src/index.js) -/

/-- One entry of a center's `services` array. -/
structure Service where
  name : String
  booking_link : String
deriving DecidableEq

/-- A facility record as stored in the centers mapping. -/
structure FacilityRecord where
  services : List Service
  general_booking_link : String
  business_link : String
  hours : String
deriving DecidableEq

/-- index.js lines 35-73: the object assigned to `cachedCenters` on refresh,
as an association list in key insertion order. -/
def centersData : List (String × FacilityRecord) :=
  [ ("davis",
     { services :=
         [ { name := "whole-body cryotherapy"
             booking_link := "https://hirefrederick.com/us-cryotherapy-davis/whole-body" },
           { name := "cryo facial"
             booking_link := "https://hirefrederick.com/us-cryotherapy-davis/facial" } ]
       general_booking_link := "https://hirefrederick.com/us-cryotherapy-davis"
       business_link := "https://g.co/kgs/zufxqGm"
       hours := "Mon-Fri: 10am-6pm, Sat: 10am-4pm, Sun: Closed" }),
    ("roseville",
     { services :=
         [ { name := "whole-body cryotherapy"
             booking_link := "https://hirefrederick.com/us-cryotherapy-roseville/whole-body" },
           { name := "localized treatments"
             booking_link := "https://hirefrederick.com/us-cryotherapy-roseville/localized" } ]
       general_booking_link := "https://hirefrederick.com/us-cryotherapy-roseville"
       business_link := "https://g.co/kgs/d1SZgA2"
       hours := "Mon-Fri: 9am-7pm, Sat: 9am-5pm, Sun: 10am-4pm" }),
    ("pleasanton",
     { services :=
         [ { name := "cryo facial"
             booking_link := "https://hirefrederick.com/us-cryotherapy-pleasanton/facial" },
           { name := "localized treatments"
             booking_link := "https://hirefrederick.com/us-cryotherapy-pleasanton/localized" } ]
       general_booking_link := "https://hirefrederick.com/us-cryotherapy-pleasanton"
       business_link := "https://g.co/kgs/duuTmC6"
       hours := "Mon-Fri: 10am-6pm, Sat: 10am-4pm, Sun: Closed" }),
    ("fort cavazos",
     { services :=
         [ { name := "whole-body cryotherapy"
             booking_link := "https://hirefrederick.com/us-cryotherapy-fort-cavazos/whole-body" },
           { name := "cryo facial"
             booking_link := "https://hirefrederick.com/us-cryotherapy-fort-cavazos/facial" },
           { name := "localized treatments"
             booking_link := "https://hirefrederick.com/us-cryotherapy-fort-cavazos/localized" } ]
       general_booking_link := "https://hirefrederick.com/us-cryotherapy-fort-cavazos"
       business_link := "https://g.co/kgs/dgh16ZW"
       hours := "Mon-Fri: 8am-8pm, Sat-Sun: 9am-5pm" }) ]

/-- index.js lines 26-28: the module-level cache cell. `lastFetchTime` starts
as null in the source; it is modelled as 0, which is only read after a first
refresh has stored a real timestamp (the guard short-circuits on the empty
cache). Timestamps are milliseconds as integers. -/
structure CacheState where
  cachedCenters : Option (List (String × FacilityRecord))
  lastFetchTime : Int
deriving DecidableEq

/-- The state of the cache cell at module load. -/
def initialCacheState : CacheState := { cachedCenters := none, lastFetchTime := 0 }

/-- index.js line 28: five minutes in milliseconds. -/
def CACHE_DURATION : Int := 5 * 60 * 1000

/-- index.js lines 31-78, `fetchCenters`: refresh when the cache is empty or
stale (elapsed time strictly greater than the duration), replacing the mapping
wholesale and storing the refresh timestamp; otherwise return the cached
mapping unchanged. The simulated one-second upstream delay is elided: one
timestamp `now` stands for the call's clock readings. The boolean reports
whether the refresh path executed. On the cache-hit path the source returns
the non-null `cachedCenters`; the `getD` default is unreachable there since
the guard just established `cachedCenters ≠ none`. -/
def fetchCenters (now : Int) (s : CacheState) :
    List (String × FacilityRecord) × CacheState × Bool :=
  if s.cachedCenters = none ∨ now - s.lastFetchTime > CACHE_DURATION then
    (centersData, { cachedCenters := some centersData, lastFetchTime := now }, true)
  else
    (s.cachedCenters.getD centersData, s, false)

/-- index.js line 105: the known center identifiers. -/
def validCenters : List String := ["davis", "roseville", "pleasanton", "fort cavazos"]

/-- index.js lines 81-85: the randomly chosen booking confirmation templates. -/
def bookingConfirmations : List String :=
  [ "Awesome! You can book your \x7bservice\x7d at \x7bcenter\x7d here: \x7bbooking_link\x7d You’re making a great choice—let me know if you need anything else! 😊",
    "Great pick! Book your \x7bservice\x7d at \x7bcenter\x7d with this link: \x7bbooking_link\x7d Any questions? I’m here to help!",
    "You’re all set! Schedule your \x7bservice\x7d at \x7bcenter\x7d here: \x7bbooking_link\x7d Excited for you—let me know if you need more assistance! 😊" ]

/-- index.js lines 87-91: the randomly chosen cryotherapy explanations. -/
def explanations : List String :=
  [ "Cryotherapy is a fantastic way to boost recovery! It uses cold temps to reduce inflammation, lift your energy, and even improve your mood—all in just a few minutes. Want to try it? I can help you book! 😊",
    "Cryotherapy speeds up recovery with cold temperatures that ease inflammation and boost energy. It’s quick, safe, and feels amazing! Ready to book a session? 😊",
    "With cryotherapy, you get less inflammation, better mood, and more energy in just minutes! It’s a wellness game-changer. Shall I help you book? 😊" ]

/-- JS `centers[k]` on the association list (keys are unique). -/
def lookupCenter (centers : List (String × FacilityRecord)) (k : String) :
    Option FacilityRecord :=
  (centers.find? (fun p => p.1 == k)).map (fun p => p.2)

/-- index.js lines 144-147 / 157-160: pick a template and substitute the three
placeholders; JS `replace` with a string pattern replaces the first occurrence
(each placeholder occurs once per template). `Math.floor(Math.random() * 3)`
is modelled by an arbitrary index `rnd : Fin 3`. -/
def applyBookingTemplate (rnd : Fin 3) (service center link : String) : String :=
  jsReplaceFirst
    (jsReplaceFirst
      (jsReplaceFirst (bookingConfirmations.getD rnd.val "") "\x7bservice\x7d" service)
      "\x7bcenter\x7d" center)
    "\x7bbooking_link\x7d" link

/-- index.js lines 121-186: the intent dispatch, given the fetched centers
mapping and the already lower-cased center/service parameters ("" when not
supplied). Returns `none` exactly where the source would dereference a missing
record (`centers[center].services` on an absent key throws a TypeError, which
the route's catch turns into a 500). -/
def faqDispatch (centers : List (String × FacilityRecord))
    (intent center service : String) (rnd : Fin 3) : Option String :=
  let allCenters := centers.map (fun p => p.1)
  if intent = "Book Appointment" then
    if center = "" then
      if service ≠ "" then
        let availableCenters := allCenters.filter (fun c =>
          match lookupCenter centers c with
          | some r => r.services.any (fun sv => jsLower sv.name == service)
          | none => false)
        if !availableCenters.isEmpty then
          some ("Hi! I’m Jen. We offer " ++ service ++ " at " ++
                String.intercalate ", " availableCenters ++ ". Which location works for you?")
        else
          some ("Hi! I’m Jen. Sorry, " ++ service ++
                " isn’t available at our centers. Can I help with something else?")
      else
        some "Hi! I’m Jen, your US Cryotherapy assistant. Which center would you like to visit? We’ve got Davis, Roseville, Pleasanton, and Fort Cavazos!"
    else
      match lookupCenter centers center with
      | none => none
      | some centerData =>
        if service ≠ "" then
          match centerData.services.find? (fun sv => jsLower sv.name == service) with
          | some serviceData =>
            some (applyBookingTemplate rnd service center serviceData.booking_link)
          | none =>
            some ("Sorry, " ++ service ++ " isn’t offered at " ++ center ++ ". We have " ++
                  String.intercalate ", " (centerData.services.map (fun sv => sv.name)) ++
                  ". Book here: " ++ centerData.general_booking_link ++ " Need help picking?")
        else
          some (applyBookingTemplate rnd "session" center centerData.general_booking_link)
  else if intent = "Explain Cryotherapy" then
    some (explanations.getD rnd.val "")
  else if intent = "Reschedule Appointment" then
    match (if center ≠ "" then lookupCenter centers center else none) with
    | some centerData =>
      some ("To reschedule at " ++ center ++
            ", please call them directly. Contact info here: " ++ centerData.business_link ++
            " They’ll sort it out for you!")
    | none =>
      some "Please call your center to reschedule. Tell me which one, and I’ll get you the contact link!"
  else if intent = "Address Concerns" then
    some "No stress! Cryotherapy is safe, fast (2-3 minutes), and super refreshing. Our staff guides you every step. Any specific worries I can ease? 😊"
  else if intent = "Provide Center Information" then
    match (if center ≠ "" then lookupCenter centers center else none) with
    | some centerData =>
      some ("Here’s the scoop on " ++ center ++ ":\n- **Services**: " ++
            String.intercalate ", " (centerData.services.map (fun sv => sv.name)) ++
            "\n- **Hours**: " ++ centerData.hours ++
            "\n- **More Info**: " ++ centerData.business_link ++ "\nWant to book?")
    | none =>
      some "We’ve got centers in Davis, Roseville, Pleasanton, and Fort Cavazos. Which one are you curious about?"
  else
    some "Oops, I didn’t catch that! I can book appointments, explain cryotherapy, or share center info. What’s on your mind? 😊"

/-- The extracted fields of a FAQ request: the intent display name ("" when
absent) and the raw center/service string parameters (`none` when absent). -/
structure FaqRequest where
  intent : String
  center : Option String
  service : Option String

/-- index.js lines 101-102: `parameters.x ? parameters.x.toLowerCase() : ''` —
a missing or empty parameter collapses to "", anything else is lower-cased. -/
def normParam : Option String → String
  | none => ""
  | some s => if s = "" then "" else jsLower s

/-- index.js lines 188-194: `res.json({ fulfillmentText: responseText })` for a
computed text, or — when the dispatch threw on an absent record — the catch
block's `res.status(500).json(...)`. -/
def dispatchToResponse : Option String → HttpResponse
  | some txt => { status := 200, followupEvent := none, fulfillmentText := some txt }
  | none =>
    { status := 500, followupEvent := none
      fulfillmentText := some "Sorry, something went wrong on my end. Try again soon!" }

/-- index.js lines 94-195, POST /webhook: normalize the parameters; if a
nonempty center is not in the known set, answer immediately with the
corrective message (before any cache access or intent inspection); otherwise
fetch the centers mapping and dispatch on the intent. (The source's
`typeof service !== 'string'` guard is unreachable here: a normalized service
is always a string.) Returns the response, the cache cell afterwards, and
whether `fetchCenters` was invoked. A `none` from the dispatch is the thrown
TypeError, which the route's catch answers with a 500. -/
def faqHandler (now : Int) (st : CacheState) (req : FaqRequest) (rnd : Fin 3) :
    HttpResponse × CacheState × Bool :=
  let center := normParam req.center
  let service := normParam req.service
  if center ≠ "" ∧ center ∉ validCenters then
    ({ status := 200, followupEvent := none
       fulfillmentText := some ("Oops! " ++ center ++
         " isn’t one of our centers. We have Davis, Roseville, Pleasanton, and Fort Cavazos. Which one would you like?") },
     st, false)
  else
    let fc := fetchCenters now st
    (dispatchToResponse (faqDispatch fc.1 req.intent center service rnd), fc.2.1, true)

/-- Reachability invariant of the cache cell: it is empty or holds exactly the
refresh object. -/
def CacheInv (s : CacheState) : Prop :=
  s.cachedCenters = none ∨ s.cachedCenters = some centersData

/-! ## Auxiliary definitions used only by the statements of the theorems -/

/-- The decimal digit characters. -/
def isDigitChar (c : Char) : Bool := "0123456789".data.contains c

/-- The ASCII punctuation characters. -/
def isPunctChar (c : Char) : Bool :=
  "!\x22#$%&\x27()*+,-./:;<=>?@[\\]^_\x60\x7b|\x7d~".data.contains c

/-- The missing-information prompt of the missing-field directive
(webhook.js line 165). -/
def missingInfoPrompt : String :=
  "I seem to be missing some information. Could you please provide your full name, email address, and phone number?"

/-- A looked-up facility record exists and has a nonempty services list and
nonempty link and hours fields. -/
def recordOk : Option FacilityRecord → Bool
  | none => false
  | some r =>
    !r.services.isEmpty && r.general_booking_link != "" &&
    r.business_link != "" && r.hours != ""

end DialogflowWebhook

/-! ## Helper lemmas -/

namespace DialogflowWebhook

/-- A digit or ASCII punctuation character is neither alphabetic nor
whitespace, so it falls outside the name regex's character class. -/
lemma digit_punct_not_name_class (c : Char)
    (h : isDigitChar c = true ∨ isPunctChar c = true) :
    (asciiAlpha c || jsSpace c) = false := by
  rcases h with h | h
  · have hm : c ∈ "0123456789".data := by
      simpa [isDigitChar] using h
    fin_cases hm <;> decide
  · have hm : c ∈ "!\x22#$%&\x27()*+,-./:;<=>?@[\\]^_\x60\x7b|\x7d~".data := by
      simpa [isPunctChar] using h
    fin_cases hm <;> decide

/-- Dropping a prefix of `p`-satisfying elements keeps every element `p`
rejects. -/
lemma mem_dropWhile_of_mem {α : Type} (p : α → Bool) (x : α) :
    ∀ l : List α, x ∈ l → p x = false → x ∈ l.dropWhile p := by
  intro l hx hpx
  induction l with
  | nil => exact absurd hx (List.not_mem_nil x)
  | cons a t ih =>
    rw [List.dropWhile_cons]
    rcases List.mem_cons.mp hx with rfl | ht
    · rw [hpx]; simp
    · by_cases ha : p a = true
      · rw [ha]; simpa using ih ht
      · rw [Bool.not_eq_true] at ha; rw [ha]; simp [ht]

/-- Trimming never removes a nonwhitespace character. -/
lemma mem_jsTrim_of_mem {c : Char} {s : String}
    (hc : c ∈ s.data) (hsp : jsSpace c = false) : c ∈ (jsTrim s).data := by
  unfold jsTrim
  simp only [List.mem_reverse]
  apply mem_dropWhile_of_mem _ _ _ _ hsp
  simp only [List.mem_reverse]
  exact mem_dropWhile_of_mem _ _ _ hc hsp

/-- Under the cache invariant, every `fetchCenters` call hands back the
refresh object, whether it hit or refreshed. -/
lemma fetchCenters_fst_of_inv (now : Int) (s : CacheState) (h : CacheInv s) :
    (fetchCenters now s).1 = centersData := by
  unfold fetchCenters
  by_cases hcond : s.cachedCenters = none ∨ now - s.lastFetchTime > CACHE_DURATION
  · rw [if_pos hcond]
  · rw [if_neg hcond]
    push_neg at hcond
    rcases h with h | h
    · exact absurd h hcond.1
    · rw [h]; rfl

/-- `fetchCenters` preserves the cache invariant. -/
lemma cacheInv_preserved (now : Int) (s : CacheState) (h : CacheInv s) :
    CacheInv (fetchCenters now s).2.1 := by
  unfold fetchCenters
  by_cases hcond : s.cachedCenters = none ∨ now - s.lastFetchTime > CACHE_DURATION
  · rw [if_pos hcond]; exact Or.inr rfl
  · rw [if_neg hcond]; exact h

/-- An `if` with `some` in both branches is defined. -/
lemma isSome_ite {c : Prop} [Decidable c] (a b : String) :
    (if c then some a else some b).isSome = true := by
  split <;> rfl

/-- The dispatch never dereferences an absent record when the center is either
unspecified or present in the mapping: every branch yields a response text. -/
lemma faqDispatch_isSome (centers : List (String × FacilityRecord))
    (intent center service : String) (rnd : Fin 3)
    (h : center = "" ∨ (lookupCenter centers center).isSome = true) :
    (faqDispatch centers intent center service rnd).isSome = true := by
  unfold faqDispatch
  repeat' split
  all_goals first
  | rfl
  | exact isSome_ite _ _
  | simp_all

/-! ## Claim theorems -/

/-- Claim C1: for every successful intake submission (all three fields present
and all three validators passing), the orchestrator's effect trace is the
persistence call alone or the persistence call followed by the notification
call — persistence always precedes notification — and when the persistence
call throws, the notification call is never issued and the response is the
fixed HTTP 500 apology. -/
theorem intake_persists_before_notifying (c : Collaborators) (p : IntakeParams)
    (hn : extractName p.fullname ≠ "")
    (he : extractStrParam p.email ≠ "")
    (hp : extractStrParam p.phoneNumber ≠ "")
    (hnv : isValidName (JSValue.str (extractName p.fullname)) = true)
    (hev : isValidEmail (JSValue.str (extractStrParam p.email)) = true)
    (hpv : isValidPhoneNumber c.phone (JSValue.str (extractStrParam p.phoneNumber)) = true) :
    ((webhookHandler c p).2 = [Effect.save] ∨ (webhookHandler c p).2 = [Effect.save, Effect.email])
    ∧ (c.saveOk = false →
        (webhookHandler c p).2 = [Effect.save]
        ∧ Effect.email ∉ (webhookHandler c p).2
        ∧ (webhookHandler c p).1 = processingErrorResponse) := by
  obtain ⟨lib, so, eo⟩ := c
  simp only at hpv
  cases so <;> cases eo <;>
    simp_all [webhookHandler, intakeCore, hn, he, hp]

/-- Witness for C1: a concrete valid submission whose persistence call throws
ends with only the save effect and the 500 apology. -/
theorem intake_persists_before_notifying_witness :
    (webhookHandler ⟨⟨fun _ => ParseOutcome.parsed true⟩, false, true⟩
        ⟨some (JSValue.str "John Doe"), some (JSValue.str "john@example.com"),
         some (JSValue.str "+12025550123")⟩).2 = [Effect.save]
    ∧ Effect.email ∉ (webhookHandler ⟨⟨fun _ => ParseOutcome.parsed true⟩, false, true⟩
        ⟨some (JSValue.str "John Doe"), some (JSValue.str "john@example.com"),
         some (JSValue.str "+12025550123")⟩).2
    ∧ (webhookHandler ⟨⟨fun _ => ParseOutcome.parsed true⟩, false, true⟩
        ⟨some (JSValue.str "John Doe"), some (JSValue.str "john@example.com"),
         some (JSValue.str "+12025550123")⟩).1 = processingErrorResponse := by
  exact (intake_persists_before_notifying _ _ (by decide) (by decide) (by decide)
    (by decide) (by decide) (by decide)).2 rfl

/-- Claim C2: whenever one of the extracted name/email/phone values is empty
(missing parameters extract to the empty string), the canonical intake handler
answers with the missing-field directive carrying the missing-information
prompt, issues no collaborator call, and the validation-failure directive — a
different response for every combination of validator outcomes — is never
produced. -/
theorem missing_field_short_circuits_validation (c : Collaborators) (p : IntakeParams)
    (h : extractName p.fullname = "" ∨ extractStrParam p.email = "" ∨
         extractStrParam p.phoneNumber = "") :
    webhookHandler c p = (missingFieldResponse, [])
    ∧ missingFieldResponse.fulfillmentText = some missingInfoPrompt
    ∧ ∀ nv ev pv : Bool, validationFailureResponse nv ev pv ≠ missingFieldResponse := by
  refine ⟨?_, rfl, by decide⟩
  unfold webhookHandler intakeCore
  rw [if_pos h]

/-- Witness for C2: a request with an empty email parameter gets the
missing-field directive. -/
theorem missing_field_short_circuits_validation_witness :
    webhookHandler ⟨⟨fun _ => ParseOutcome.parsed true⟩, true, true⟩
      ⟨some (JSValue.str "John Doe"), some (JSValue.str ""), some (JSValue.str "+12025550123")⟩ =
      (missingFieldResponse, []) := by
  exact (missing_field_short_circuits_validation _ _ (Or.inr (Or.inl (by decide)))).1

/-- Claim C3: when all three fields are present but validation fails, the
response is the re-collection directive built from the message concatenating
the per-field phrases of exactly the failed validators in name, email, phone
order with the trailing comma separator turned into a period; each field's
phrase occurs in the message precisely when its validator returned false. -/
theorem validation_failure_names_failed_fields (c : Collaborators) (p : IntakeParams)
    (nv ev pv : Bool)
    (hn : extractName p.fullname ≠ "")
    (he : extractStrParam p.email ≠ "")
    (hp : extractStrParam p.phoneNumber ≠ "")
    (hnv : isValidName (JSValue.str (extractName p.fullname)) = nv)
    (hev : isValidEmail (JSValue.str (extractStrParam p.email)) = ev)
    (hpv : isValidPhoneNumber c.phone (JSValue.str (extractStrParam p.phoneNumber)) = pv)
    (hfail : (nv && ev && pv) = false) :
    webhookHandler c p = (validationFailureResponse nv ev pv, [])
    ∧ containsSubstr namePhrase (buildInvalidFieldsMessage nv ev pv) = !nv
    ∧ containsSubstr emailPhrase (buildInvalidFieldsMessage nv ev pv) = !ev
    ∧ containsSubstr phonePhrase (buildInvalidFieldsMessage nv ev pv) = !pv := by
  refine ⟨?_, ?_, ?_, ?_⟩
  · unfold webhookHandler intakeCore
    rw [if_neg (by push_neg; exact ⟨hn, he, hp⟩)]
    simp only [hnv, hev, hpv, hfail]
    simp
  · cases nv <;> cases ev <;> cases pv <;> simp_all <;> decide
  · cases nv <;> cases ev <;> cases pv <;> simp_all <;> decide
  · cases nv <;> cases ev <;> cases pv <;> simp_all <;> decide

/-- Witness for C3: a request whose email alone is invalid produces the
re-collection directive whose message mentions the email phrase and not the
name phrase. -/
theorem validation_failure_names_failed_fields_witness :
    webhookHandler ⟨⟨fun _ => ParseOutcome.parsed true⟩, true, true⟩
      ⟨some (JSValue.str "John Doe"), some (JSValue.str "not-an-email"),
       some (JSValue.str "+12025550123")⟩ =
      (validationFailureResponse true false true, [])
    ∧ containsSubstr emailPhrase (buildInvalidFieldsMessage true false true) = true
    ∧ containsSubstr namePhrase (buildInvalidFieldsMessage true false true) = false := by
  have h := validation_failure_names_failed_fields
    ⟨⟨fun _ => ParseOutcome.parsed true⟩, true, true⟩
    ⟨some (JSValue.str "John Doe"), some (JSValue.str "not-an-email"),
     some (JSValue.str "+12025550123")⟩ true false true
    (by decide) (by decide) (by decide) (by decide) (by decide) (by decide) (by decide)
  exact ⟨h.1, h.2.2.1, h.2.1⟩

end DialogflowWebhook

namespace DialogflowWebhook

/-- Claim C4: `isValidName` returns false on every non-string input and on
every string containing a digit or punctuation character, and it returns true
exactly when the trimmed input consists solely of alphabetic and whitespace
characters (the source regex's `\s` class) and splits into at least two
nonempty whitespace-separated tokens (an empty trimmed input has zero tokens,
so nonemptiness is subsumed by the token bound). -/
theorem isValidName_characterization :
    (∀ v : JSValue, (∀ s, v ≠ JSValue.str s) → isValidName v = false)
    ∧ (∀ s : String, (∃ c ∈ s.data, isDigitChar c = true ∨ isPunctChar c = true) →
        isValidName (JSValue.str s) = false)
    ∧ (∀ s : String,
        isValidName (JSValue.str s) = true ↔
          ((∀ c ∈ (jsTrim s).data, (asciiAlpha c || jsSpace c) = true) ∧
           2 ≤ countTokens (jsTrim s).data)) := by
  refine ⟨?_, ?_, ?_⟩
  · intro v h
    cases v with
    | str s => exact absurd rfl (h s)
    | _ => rfl
  · rintro s ⟨c, hc, hdp⟩
    have hclass : (asciiAlpha c || jsSpace c) = false := digit_punct_not_name_class c hdp
    have hsp : jsSpace c = false := by
      rcases Bool.or_eq_false_iff.mp hclass with ⟨_, h2⟩; exact h2
    have hmem : c ∈ (jsTrim s).data := mem_jsTrim_of_mem hc hsp
    have hall : (jsTrim s).data.all (fun c => asciiAlpha c || jsSpace c) = false := by
      rw [Bool.eq_false_iff]
      intro hall
      have := List.all_eq_true.mp hall c hmem
      rw [hclass] at this
      exact Bool.false_ne_true this
    simp only [isValidName, nameRegexTest, hall, Bool.and_false, Bool.false_and]
  · intro s
    constructor
    · intro h
      simp only [isValidName, nameRegexTest, Bool.and_eq_true, decide_eq_true_eq,
        List.all_eq_true] at h
      exact ⟨h.1.2, h.2⟩
    · rintro ⟨hall, htok⟩
      have hne : ¬(jsTrim s).data.isEmpty = true := by
        intro he
        rw [List.isEmpty_iff] at he
        rw [he] at htok
        simp [countTokens, countTokensGo] at htok
      simp only [isValidName, nameRegexTest, Bool.and_eq_true, decide_eq_true_eq,
        List.all_eq_true, Bool.not_eq_true']
      exact ⟨⟨by simpa using hne, hall⟩, htok⟩

/-- Witness for C4: a number is rejected, a digit and a punctuation character
each cause rejection, and a well-formed two-token name is accepted. -/
theorem isValidName_characterization_witness :
    isValidName (JSValue.num 42) = false
    ∧ isValidName (JSValue.str "John 3rd") = false
    ∧ isValidName (JSValue.str "J. Doe") = false
    ∧ isValidName (JSValue.str " John   Doe ") = true := by
  refine ⟨?_, ?_, ?_, ?_⟩
  · exact isValidName_characterization.1 (JSValue.num 42) (fun s h => by cases h)
  · exact isValidName_characterization.2.1 "John 3rd" ⟨'3', by decide, Or.inl (by decide)⟩
  · exact isValidName_characterization.2.1 "J. Doe" ⟨'.', by decide, Or.inr (by decide)⟩
  · exact (isValidName_characterization.2.2 " John   Doe ").mpr ⟨by decide, by decide⟩

/-- Claim C5: `isValidPhoneNumber` fails closed — every non-string input
yields false and every parse exception is caught and yields false. In this
embedding the library's two behaviors (throwing, or returning a number with a
validity verdict) are an arbitrary oracle, and the function is a total
function into Bool: no exception can propagate out of it on any path. -/
theorem isValidPhoneNumber_fails_closed :
    ∀ (lib : PhoneLib) (v : JSValue),
      ((∀ s, v ≠ JSValue.str s) → isValidPhoneNumber lib v = false)
      ∧ (∀ s, v = JSValue.str s → lib.parse s = ParseOutcome.failed →
          isValidPhoneNumber lib v = false) := by
  intro lib v
  constructor
  · intro h
    cases v with
    | str s => exact absurd rfl (h s)
    | _ => rfl
  · rintro s rfl hp
    simp [isValidPhoneNumber, hp]

/-- Witness for C5: null input and a string the library fails to parse both
come back false. -/
theorem isValidPhoneNumber_fails_closed_witness :
    isValidPhoneNumber ⟨fun _ => ParseOutcome.failed⟩ JSValue.nullv = false
    ∧ isValidPhoneNumber ⟨fun _ => ParseOutcome.failed⟩ (JSValue.str "not a phone") = false := by
  constructor
  · exact (isValidPhoneNumber_fails_closed ⟨fun _ => ParseOutcome.failed⟩ JSValue.nullv).1
      (fun s h => by cases h)
  · exact (isValidPhoneNumber_fails_closed ⟨fun _ => ParseOutcome.failed⟩
      (JSValue.str "not a phone")).2 "not a phone" rfl rfl

/-- Claim C6: a `fetchCenters` call finding a mapping whose age does not
exceed the cache duration returns that very mapping with the state untouched
and the refresh path not executed; a call finding no mapping or a stale one
executes the refresh, replaces the mapping wholesale and stores the new
timestamp; and a second call within the duration of any first call returns
the identical mapping without refreshing. -/
theorem fetchCenters_cache_behavior (now t2 : Int) (s : CacheState) :
    (∀ m, s.cachedCenters = some m → now - s.lastFetchTime ≤ CACHE_DURATION →
        fetchCenters now s = (m, s, false))
    ∧ ((s.cachedCenters = none ∨ now - s.lastFetchTime > CACHE_DURATION) →
        fetchCenters now s =
          (centersData, { cachedCenters := some centersData, lastFetchTime := now }, true))
    ∧ (t2 - (fetchCenters now s).2.1.lastFetchTime ≤ CACHE_DURATION →
        fetchCenters t2 (fetchCenters now s).2.1 =
          ((fetchCenters now s).1, (fetchCenters now s).2.1, false)) := by
  refine ⟨?_, ?_, ?_⟩
  · intro m hm hfresh
    unfold fetchCenters
    rw [if_neg (by rw [hm]; push_neg; exact ⟨Option.some_ne_none m, hfresh⟩), hm]
    rfl
  · intro h
    unfold fetchCenters
    rw [if_pos h]
  · intro hfresh
    by_cases hcond : s.cachedCenters = none ∨ now - s.lastFetchTime > CACHE_DURATION
    · have hfc : fetchCenters now s =
          (centersData, { cachedCenters := some centersData, lastFetchTime := now }, true) := by
        unfold fetchCenters; rw [if_pos hcond]
      rw [hfc] at hfresh ⊢
      unfold fetchCenters
      simp only at hfresh ⊢
      rw [if_neg (by push_neg; exact ⟨Option.some_ne_none _, hfresh⟩)]
      rfl
    · have hfc : fetchCenters now s = (s.cachedCenters.getD centersData, s, false) := by
        unfold fetchCenters; rw [if_neg hcond]
      push_neg at hcond
      rw [hfc] at hfresh ⊢
      unfold fetchCenters
      simp only at hfresh ⊢
      rw [if_neg (by push_neg; exact ⟨hcond.1, hfresh⟩)]

/-- Witness for C6: from the empty cache, a call at time 1000 refreshes and a
second call at time 2000 returns the identical mapping without refreshing. -/
theorem fetchCenters_cache_behavior_witness :
    fetchCenters 1000 initialCacheState =
      (centersData, { cachedCenters := some centersData, lastFetchTime := 1000 }, true)
    ∧ fetchCenters 2000 (fetchCenters 1000 initialCacheState).2.1 =
      ((fetchCenters 1000 initialCacheState).1, (fetchCenters 1000 initialCacheState).2.1, false) := by
  constructor
  · exact (fetchCenters_cache_behavior 1000 2000 initialCacheState).2.1 (Or.inl rfl)
  · exact (fetchCenters_cache_behavior 1000 2000 initialCacheState).2.2 (by decide)

end DialogflowWebhook

namespace DialogflowWebhook

/-- Claim C7: every Book Appointment request whose center parameter
lower-cases to "davis" and whose service parameter lower-cases to "whole-body
cryotherapy" receives, for every possible random template choice, a response
text containing the exact davis whole-body booking link. -/
theorem book_davis_whole_body_contains_link (now : Int) (st : CacheState)
    (hinv : CacheInv st) (cRaw sRaw : String) (rnd : Fin 3)
    (hc : jsLower cRaw = "davis") (hs : jsLower sRaw = "whole-body cryotherapy") :
    containsSubstr "https://hirefrederick.com/us-cryotherapy-davis/whole-body"
      ((faqHandler now st ⟨"Book Appointment", some cRaw, some sRaw⟩ rnd).1.fulfillmentText.getD "")
      = true := by
  have hcne : cRaw ≠ "" := by
    intro h; rw [h] at hc; exact absurd hc (by decide)
  have hsne : sRaw ≠ "" := by
    intro h; rw [h] at hs; exact absurd hs (by decide)
  have hcn : normParam (some cRaw) = "davis" := by
    simp only [normParam, if_neg hcne, hc]
  have hsn : normParam (some sRaw) = "whole-body cryotherapy" := by
    simp only [normParam, if_neg hsne, hs]
  simp only [faqHandler, hcn, hsn]
  rw [if_neg (by decide : ¬(("davis" : String) ≠ "" ∧ ("davis" : String) ∉ validCenters))]
  rw [fetchCenters_fst_of_inv now st hinv]
  show containsSubstr "https://hirefrederick.com/us-cryotherapy-davis/whole-body"
      ((dispatchToResponse (faqDispatch centersData "Book Appointment" "davis"
        "whole-body cryotherapy" rnd)).fulfillmentText.getD "") = true
  fin_cases rnd <;> decide

/-- Witness for C7: a concrete mixed-case request on the empty cache with the
middle template. -/
theorem book_davis_whole_body_contains_link_witness :
    containsSubstr "https://hirefrederick.com/us-cryotherapy-davis/whole-body"
      ((faqHandler 0 initialCacheState
          ⟨"Book Appointment", some "Davis", some "Whole-Body Cryotherapy"⟩ 1).1.fulfillmentText.getD "")
      = true := by
  exact book_davis_whole_body_contains_link 0 initialCacheState (Or.inl rfl)
    "Davis" "Whole-Body Cryotherapy" 1 (by decide) (by decide)

/-- Claim C8: a request supplying a nonempty center outside the known set is
answered immediately with the corrective message enumerating the valid
centers; the cache cell is untouched, `fetchCenters` is not invoked (the
returned flag is false) and no intent branch runs — the result is the same for
every intent, service and random choice. -/
theorem unknown_center_short_circuits
    (now : Int) (st : CacheState) (req : FaqRequest) (rnd : Fin 3)
    (h1 : normParam req.center ≠ "") (h2 : normParam req.center ∉ validCenters) :
    faqHandler now st req rnd =
      ({ status := 200, followupEvent := none
         fulfillmentText := some ("Oops! " ++ normParam req.center ++
           " isn’t one of our centers. We have Davis, Roseville, Pleasanton, and Fort Cavazos. Which one would you like?") },
       st, false) := by
  simp only [faqHandler]
  rw [if_pos ⟨h1, h2⟩]

/-- Witness for C8: a Book Appointment request naming the center Atlantis is
rejected with the corrective message, without a cache fetch. -/
theorem unknown_center_short_circuits_witness :
    faqHandler 7 initialCacheState ⟨"Book Appointment", some "Atlantis", some "cryo facial"⟩ 2 =
      ({ status := 200, followupEvent := none
         fulfillmentText := some "Oops! atlantis isn’t one of our centers. We have Davis, Roseville, Pleasanton, and Fort Cavazos. Which one would you like?" },
       initialCacheState, false) := by
  exact unknown_center_short_circuits 7 initialCacheState
    ⟨"Book Appointment", some "Atlantis", some "cryo facial"⟩ 2 (by decide) (by decide)

/-- Counterexample to claim C9 as stated: a Provide Center Information request
with the unknown center "atlantis" is intercepted by center validation and
receives the corrective "Oops!" message, not the fixed "which one are you
curious about" prompt. -/
theorem provide_center_info_unknown_center_cex :
    (faqHandler 0 initialCacheState ⟨"Provide Center Information", some "atlantis", none⟩ 0).1.fulfillmentText =
      some "Oops! atlantis isn’t one of our centers. We have Davis, Roseville, Pleasanton, and Fort Cavazos. Which one would you like?"
    ∧ (faqHandler 0 initialCacheState ⟨"Provide Center Information", some "atlantis", none⟩ 0).1.fulfillmentText ≠
      some "We’ve got centers in Davis, Roseville, Pleasanton, and Fort Cavazos. Which one are you curious about?" := by
  constructor
  · decide
  · decide

/-- Claim C9 as amended: every Provide Center Information request in which no
center is supplied (the normalized center parameter is empty) returns the
fixed prompt; a supplied unknown center instead triggers the validation
corrective message before dispatch. -/
theorem provide_center_info_no_center_prompt
    (now : Int) (st : CacheState) (req : FaqRequest) (rnd : Fin 3)
    (hintent : req.intent = "Provide Center Information")
    (hcenter : normParam req.center = "") :
    (faqHandler now st req rnd).1 =
      { status := 200, followupEvent := none
        fulfillmentText := some "We’ve got centers in Davis, Roseville, Pleasanton, and Fort Cavazos. Which one are you curious about?" } := by
  simp only [faqHandler, hintent, hcenter]
  rw [if_neg (by simp)]
  show dispatchToResponse (faqDispatch (fetchCenters now st).1
      "Provide Center Information" "" (normParam req.service) rnd) = _
  unfold faqDispatch
  rw [if_neg (by decide), if_neg (by decide), if_neg (by decide), if_neg (by decide),
    if_pos rfl]
  rfl

/-- Witness for the amended C9: a request with no center parameter receives
the fixed prompt. -/
theorem provide_center_info_no_center_prompt_witness :
    (faqHandler 3 initialCacheState ⟨"Provide Center Information", none, none⟩ 0).1 =
      { status := 200, followupEvent := none
        fulfillmentText := some "We’ve got centers in Davis, Roseville, Pleasanton, and Fort Cavazos. Which one are you curious about?" } := by
  exact provide_center_info_no_center_prompt 3 initialCacheState
    ⟨"Provide Center Information", none, none⟩ 0 rfl rfl

/-- Claim C10: the cache invariant holds initially and is preserved by
`fetchCenters`; under it every `fetchCenters` call returns exactly the refresh
object, whose key list is precisely the dispatcher's valid-center list and
whose records each carry a nonempty services list, a general booking link, a
business link and hours; consequently every request handled after center
validation completes with status 200 — no branch ever dereferences an absent
record. -/
theorem centers_mapping_invariant :
    CacheInv initialCacheState
    ∧ (∀ (now : Int) (s : CacheState), CacheInv s → CacheInv (fetchCenters now s).2.1)
    ∧ (∀ (now : Int) (s : CacheState), CacheInv s → (fetchCenters now s).1 = centersData)
    ∧ centersData.map (fun p => p.1) = validCenters
    ∧ (∀ c ∈ validCenters, recordOk (lookupCenter centersData c) = true)
    ∧ (∀ (now : Int) (s : CacheState) (req : FaqRequest) (rnd : Fin 3),
        CacheInv s → (faqHandler now s req rnd).1.status = 200) := by
  refine ⟨Or.inl rfl, cacheInv_preserved, fetchCenters_fst_of_inv, by decide, by decide, ?_⟩
  intro now s req rnd hinv
  simp only [faqHandler]
  by_cases hcond : normParam req.center ≠ "" ∧ normParam req.center ∉ validCenters
  · rw [if_pos hcond]
  · rw [if_neg hcond]
    push_neg at hcond
    have hdisj : normParam req.center = "" ∨
        (lookupCenter (fetchCenters now s).1 (normParam req.center)).isSome = true := by
      by_cases hc0 : normParam req.center = ""
      · exact Or.inl hc0
      · right
        rw [fetchCenters_fst_of_inv now s hinv]
        exact (by decide : ∀ x ∈ validCenters, (lookupCenter centersData x).isSome = true)
          _ (hcond hc0)
    have hsome := faqDispatch_isSome (fetchCenters now s).1 req.intent
      (normParam req.center) (normParam req.service) rnd hdisj
    obtain ⟨txt, htxt⟩ := Option.isSome_iff_exists.mp hsome
    show (dispatchToResponse (faqDispatch (fetchCenters now s).1 req.intent
      (normParam req.center) (normParam req.service) rnd)).status = 200
    rw [htxt]
    rfl

/-- Witness for C10: a first fetch returns the full mapping, and a Fort
Cavazos booking request on the initial state completes with status 200. -/
theorem centers_mapping_invariant_witness :
    (fetchCenters 9 initialCacheState).1 = centersData
    ∧ (faqHandler 9 initialCacheState ⟨"Book Appointment", some "Fort Cavazos", none⟩ 0).1.status = 200 := by
  constructor
  · exact centers_mapping_invariant.2.2.1 9 initialCacheState (Or.inl rfl)
  · exact centers_mapping_invariant.2.2.2.2.2 9 initialCacheState
      ⟨"Book Appointment", some "Fort Cavazos", none⟩ 0 (Or.inl rfl)

end DialogflowWebhook
